import Mathlib

/-!
Verification development for the Nova Discord bot's schedule core:
relative-date resolution, day-window event fetching/rendering, the
per-user view-state cache, and add/remove orchestration, as implemented
in `src/utils/google_calendar.py` and `src/cogs/schedule_cog.py`.

Modelling conventions:
* A calendar date is its proleptic-Gregorian ordinal, as in Python's
  `datetime.date.toordinal` (ordinal 1 = 0001-01-01, a Monday), as an `Int`.
* A timestamp (timezone-aware, already converted to the local zone) is its
  minute count since the local-zone epoch, as an `Int`; its date ordinal is
  the floor division by 1440 and its minute-of-day the remainder.
* Calls into external collaborators (the Google Calendar client, the
  third-party `dateutil` parser, the executor offload) appear as explicit
  outcome parameters, so every provider/network failure mode the Python
  code catches is a constructor the Lean functions branch on.
* Messages sent back to the requester are modelled as the list of strings
  the handler passes to `ctx.send` / `send_long_message`, in order.
-/

namespace Nova

/-- Python's `date.weekday()`: Monday = 0, ..., Sunday = 6.  Ordinal 1
(0001-01-01) is a Monday, so the weekday of an ordinal `d` is
`(d - 1) mod 7` (floor-style mod, as `%` on `Int` is `Int.emod`). -/
def pyWeekday (d : Int) : Int := (d - 1) % 7

/-- The characters Python's `str.strip()` removes (ASCII whitespace; the
inputs the claims concern are ASCII). -/
def pyIsSpace (c : Char) : Bool :=
  c = ' ' || c = '\t' || c = '\n' || c = '\x0d' || c = '\x0b' || c = '\x0c'

/-- Python's `str.lower()` restricted to ASCII (character-wise
lowercasing), written over the character list so that it evaluates by
kernel reduction. -/
def pyLower (s : String) : String := ⟨s.data.map Char.toLower⟩

/-- Python's `str.strip()` (drop leading and trailing whitespace), written
over the character list so that it evaluates by kernel reduction. -/
def pyStrip (s : String) : String :=
  ⟨((s.data.dropWhile pyIsSpace).reverse.dropWhile pyIsSpace).reverse⟩

/-- The weekday-name table of `parse_relative_date`
(`google_calendar.py` line 294). -/
def weekdays : List String :=
  ["monday", "tuesday", "wednesday", "thursday", "friday", "saturday", "sunday"]

/-- Outcome of one call to the third-party general date parser
(`dateutil.parser.parse`): a successfully parsed value (of which the code
keeps the `.date()` component, an ordinal), a `dateutil` `ParserError`, or
any other exception. -/
inductive ParseOutcome where
  | ok (d : Int)
  | parserError
  | otherError
deriving DecidableEq, Repr

/-- The general date parser as the code sees it: a function of the raw
input string and of the `today` date the code supplies (via
`default=datetime.combine(today, time(0))`) as fill-in context. -/
abbrev GeneralParser := String → Int → ParseOutcome

/-- Shallow embedding of `parse_relative_date`
(`google_calendar.py` lines 275-307).  `gp` is the third-party general
parser (`dateutil.parser.parse`), `today` the ambient
`datetime.date.today()`.  Mirrors the source: the three literal keywords
are matched on the lowercased, stripped input; otherwise the general
parser is tried on the raw input; only if it raises `ParserError` is the
weekday table consulted (`weekdays.index`, i.e. first-match lookup), and
a zero `days_ahead` is bumped to 7; any other failure yields `none`. -/
def parse_relative_date (gp : GeneralParser) (today : Int) (day_str : String) :
    Option Int :=
  let day_str_lower := pyStrip (pyLower day_str)
  if day_str_lower = "today" then
    some today
  else if day_str_lower = "tomorrow" then
    some (today + 1)
  else if day_str_lower = "yesterday" then
    some (today - 1)
  else
    match gp day_str today with
    | .ok d => some d
    | .parserError =>
      match weekdays.findIdx? (· == day_str_lower) with
      | some target_weekday =>
        let days_ahead := ((target_weekday : Int) - pyWeekday today + 7) % 7
        let days_ahead := if days_ahead = 0 then 7 else days_ahead
        some (today + days_ahead)
      | none => none
    | .otherError => none

/-- Model of the third-party `dateutil.parser.parse` at the inputs the
claims exercise it on: bare weekday names.  `dateutil`'s parser recognises
weekday names case-insensitively (its `parserinfo.WEEKDAYS` table) and,
when the parse result carries a weekday but no day number, resolves it by
adding `relativedelta(weekday=w)` to the supplied `default` date — that
is, the NEXT date with that weekday, which is the default date itself
when it already falls on that weekday
(`jumpdays = (7 - default.weekday() + w) % 7`).  Inputs outside the
weekday table are beyond the claims' scope and are mapped to
`parserError` here. -/
def dateutilParse : GeneralParser := fun day_str today =>
  match weekdays.findIdx? (· == pyStrip (pyLower day_str)) with
  | some w => .ok (today + ((w : Int) - pyWeekday today) % 7)
  | none => .parserError

/-- Claim C10: for every reference date D and every general parser,
resolving a string that lowercases and strips to "today" yields D, one
that normalises to "tomorrow" yields D + 1 day, and one that normalises
to "yesterday" yields D - 1 day; in particular this covers the three
keywords in any letter case. -/
theorem resolve_keyword_offsets (gp : GeneralParser) (today : Int)
    (s t y : String)
    (hs : pyStrip (pyLower s) = "today")
    (ht : pyStrip (pyLower t) = "tomorrow")
    (hy : pyStrip (pyLower y) = "yesterday") :
    parse_relative_date gp today s = some today ∧
    parse_relative_date gp today t = some (today + 1) ∧
    parse_relative_date gp today y = some (today - 1) := by
  refine ⟨?_, ?_, ?_⟩ <;> simp [parse_relative_date, hs, ht, hy]

/-- Witness for claim C10 at the concrete date 2025-04-21
(ordinal 739362) and mixed-case inputs. -/
theorem resolve_keyword_offsets_witness :
    pyStrip (pyLower "Today") = "today" ∧
    pyStrip (pyLower "TOMORROW") = "tomorrow" ∧
    pyStrip (pyLower "yesterday") = "yesterday" ∧
    (parse_relative_date dateutilParse 739362 "Today" = some 739362 ∧
     parse_relative_date dateutilParse 739362 "TOMORROW" = some (739362 + 1) ∧
     parse_relative_date dateutilParse 739362 "yesterday" = some (739362 - 1)) :=
  ⟨by decide, by decide, by decide,
   resolve_keyword_offsets dateutilParse 739362 "Today" "TOMORROW" "yesterday"
     (by decide) (by decide) (by decide)⟩

/-- Claim C1, failing-input evaluation: 2025-04-21 (ordinal 739362) is a
Monday, yet resolving "monday" against it yields that same Monday rather
than the Monday seven days later.  The general `dateutil` parsing step
(line 290) succeeds on bare weekday names and resolves a matching weekday
to the reference date itself, so the weekday fallback of lines 294-300 —
whose own comment says "If user says 'monday' and it's Monday, assume
next Monday" — is never reached for such inputs. -/
theorem resolve_weekday_same_day_bug :
    pyWeekday 739362 = 0 ∧
    parse_relative_date dateutilParse 739362 "monday" = some 739362 ∧
    parse_relative_date dateutilParse 739362 "monday" ≠ some (739362 + 7) := by
  decide

/-- Supporting fact for claim C1: the weekday fallback branch on its own
does satisfy the claimed property.  For any general parser that raises
`ParserError` on the input (the situation the spec's step 3 assumes), a
string normalising to a weekday name resolves to a strictly future date
at most 7 days ahead, and to exactly `today + 7` when `today` already
falls on that weekday. -/
theorem resolve_weekday_fallback_future (gp : GeneralParser) (today : Int)
    (s : String) (w : Nat)
    (hidx : weekdays.findIdx? (· == pyStrip (pyLower s)) = some w)
    (h1 : pyStrip (pyLower s) ≠ "today")
    (h2 : pyStrip (pyLower s) ≠ "tomorrow")
    (h3 : pyStrip (pyLower s) ≠ "yesterday")
    (hgp : gp s today = .parserError) :
    ∃ r, parse_relative_date gp today s = some r ∧
      today < r ∧ r ≤ today + 7 ∧ (pyWeekday today = (w : Int) → r = today + 7) := by
  refine ⟨today + (if ((w : Int) - pyWeekday today + 7) % 7 = 0 then 7
      else ((w : Int) - pyWeekday today + 7) % 7), ?_, ?_, ?_, ?_⟩
  · simp only [parse_relative_date, h1, h2, h3, hgp, hidx, if_false, ite_false]
  · split <;> omega
  · split <;> omega
  · intro hwd
    have h0 : ((w : Int) - pyWeekday today + 7) % 7 = 0 := by rw [hwd]; omega
    simp [h0]
/-! ## Event Window Fetcher (`get_events_for_day`, google_calendar.py 145-215) -/

/-- Two-digit zero padding, as Python's strftime `%d`, `%I` and `%M`
produce. -/
def pad2 (n : Nat) : String := if n < 10 then "0" ++ toString n else toString n

/-- Convert a positive proleptic-Gregorian ordinal (Python
`date.toordinal`) to `(year, month, day)`, via the standard
civil-from-days computation: `ord + 305` is the day count since
0000-03-01, from which era/year-of-era/day-of-year/month are read off. -/
def civilFromOrdinal (ord : Int) : Nat × Nat × Nat :=
  let z := (ord + 305).toNat
  let era := z / 146097
  let doe := z % 146097
  let yoe := (doe - doe / 1460 + doe / 36524 - doe / 146096) / 365
  let y := yoe + era * 400
  let doy := doe - (365 * yoe + yoe / 4 - yoe / 100)
  let mp := (5 * doy + 2) / 153
  let d := doy - (153 * mp + 2) / 5 + 1
  let m := if mp < 10 then mp + 3 else mp - 9
  (if m ≤ 2 then y + 1 else y, m, d)

/-- English weekday names, as strftime `%A` renders them
(index 0 = Monday, matching `date.weekday()`). -/
def weekdayNamesLong : List String :=
  ["Monday", "Tuesday", "Wednesday", "Thursday", "Friday", "Saturday", "Sunday"]

/-- English month names, as strftime `%B` renders them (index 1 = January). -/
def monthNamesLong : List String :=
  ["", "January", "February", "March", "April", "May", "June", "July",
   "August", "September", "October", "November", "December"]

/-- English month abbreviations, as strftime `%b` renders them. -/
def monthNamesShort : List String :=
  ["", "Jan", "Feb", "Mar", "Apr", "May", "Jun", "Jul", "Aug", "Sep",
   "Oct", "Nov", "Dec"]

/-- strftime `"%A, %B %d, %Y"` on a date ordinal — the format
`get_events_for_day` uses in its header and no-events sentence. -/
def formatDateLong (ord : Int) : String :=
  let c := civilFromOrdinal ord
  weekdayNamesLong.getD (pyWeekday ord).toNat "" ++ ", " ++
    monthNamesLong.getD c.2.1 "" ++ " " ++ pad2 c.2.2 ++ ", " ++ toString c.1

/-- strftime `"%I:%M %p"` on a timestamp in minutes since the local-zone
epoch: zero-padded 12-hour clock with AM/PM, e.g. "09:30 AM". -/
def fmtClock (t : Int) : String :=
  let m := (t % 1440).toNat
  let hour := m / 60
  let h12 := hour % 12
  let h12 := if h12 = 0 then 12 else h12
  let ampm := if hour < 12 then "AM" else "PM"
  pad2 h12 ++ ":" ++ pad2 (m % 60) ++ " " ++ ampm

/-- A provider event's `start` or `end` field: a timed `dateTime`
(timestamp in minutes since the local-zone epoch, already converted to
local time as the code's `astimezone` does) or an all-day `date`
string. -/
inductive GTimeField where
  | dateTime (t : Int)
  | date (s : String)
deriving DecidableEq, Repr

/-- One event as returned by the provider's `events().list` call: the
fields `get_events_for_day` reads.  `end_` models the Python key
`'end'` (`end` is a Lean keyword); `summary` is optional, the code
substituting "No Title". -/
structure GEvent where
  id : String
  start : GTimeField
  end_ : GTimeField
  summary : Option String
deriving DecidableEq, Repr

instance : Inhabited GEvent := ⟨⟨"", .date "", .date "", none⟩⟩

/-- The time label of one event (`get_events_for_day` lines 186-200): a
timed event renders its local start as `%I:%M %p`, with the duration in
whole minutes appended in parentheses when an end `dateTime` exists and
the duration is positive; an all-day event renders as "All Day". -/
def eventTimeStr (e : GEvent) : String :=
  match e.start with
  | .dateTime ts =>
    let base := fmtClock ts
    (match e.end_ with
     | .dateTime te =>
       let duration_minutes := te - ts
       if 0 < duration_minutes then
         base ++ " (" ++ toString duration_minutes ++ " min)"
       else base
     | .date _ => base)
  | .date _ => "All Day"

/-- The title `get_events_for_day` uses: `event.get('summary', 'No Title')`. -/
def eventTitle (e : GEvent) : String := e.summary.getD "No Title"

/-- The record appended to `event_details_list` for one event
(line 204): `(event['id'], time_str, event_summary)`. -/
def eventRecord (e : GEvent) : String × String × String :=
  (e.id, eventTimeStr e, eventTitle e)

/-- The summary line appended for the event with 1-based counter `idx`
(line 203). -/
def renderLine (idx : Nat) (e : GEvent) : String :=
  "`[" ++ toString idx ++ "]` " ++ eventTimeStr e ++ ": " ++ eventTitle e

/-- The summary lines the `for event in events` loop appends, starting
from the given value of `event_counter` (the Python loop starts it
at 1 and increments per event). -/
def renderLines (counter : Nat) : List GEvent → List String
  | [] => []
  | e :: rest => renderLine counter e :: renderLines (counter + 1) rest

/-- Outcome of the provider `events().list(...).execute()` call for the
day window: the item list, an `HttpError`, or any other exception. -/
inductive FetchResult where
  | ok (items : List GEvent)
  | httpError (e : String)
  | otherError (e : String)
deriving DecidableEq, Repr

/-- Whether the fetch outcome is one of the two caught error modes. -/
def FetchResult.isErr : FetchResult → Bool
  | .ok _ => false
  | .httpError _ => true
  | .otherError _ => true

/-- Shallow embedding of `get_events_for_day` (google_calendar.py
145-215).  `service` is the truthiness of the service object; `fetch` the
outcome of the provider list call over the day window of `target_date`
(an ordinal).  Returns the rendered summary and the record list; every
caught error path returns an error text and an empty record list. -/
def get_events_for_day (service : Bool) (fetch : FetchResult) (target_date : Int) :
    String × List (String × String × String) :=
  if !service then
    ("Error: Calendar service not available.", [])
  else
    match fetch with
    | .ok events =>
      if events.isEmpty then
        ("No events found for " ++ formatDateLong target_date ++ ".", [])
      else
        let summary_lines := ("**Schedule for " ++ formatDateLong target_date ++ ":**")
          :: renderLines 1 events
        (String.intercalate "\n" summary_lines, events.map eventRecord)
    | .httpError e =>
      ("Error: An HTTP error occurred while fetching the schedule: " ++ e, [])
    | .otherError e =>
      ("An unexpected error occurred while fetching the schedule: " ++ e, [])


/-- `msg` begins with the literal prefix `p`. -/
def strStarts (p msg : String) : Prop := ∃ rest, msg = p ++ rest

/-- The rendering loop emits one line per event. -/
theorem renderLines_length (c : Nat) (l : List GEvent) :
    (renderLines c l).length = l.length := by
  induction l generalizing c with
  | nil => rfl
  | cons e rest ih => simp [renderLines, ih]

/-- The `i`-th line the loop emits renders the `i`-th event with counter
`c + i`. -/
theorem renderLines_getD (c i : Nat) (l : List GEvent) (h : i < l.length) :
    (renderLines c l).getD i "" = renderLine (c + i) (l.getD i default) := by
  induction l generalizing c i with
  | nil => simp at h
  | cons e rest ih =>
    cases i with
    | zero => simp [renderLines]
    | succ j =>
      have hj : j < rest.length := by simpa using h
      have hc : c + 1 + j = c + (j + 1) := by omega
      simp only [renderLines, List.getD_cons_succ]
      rw [ih (c + 1) j hj, hc]

/-- Reading the `i`-th stored record is reading the `i`-th event. -/
theorem getD_map_eventRecord (l : List GEvent) (i : Nat) (h : i < l.length) :
    (l.map eventRecord).getD i ("", "", "") = eventRecord (l.getD i default) := by
  have hsome : l[i]? = some l[i] := List.getElem?_eq_getElem h
  simp [List.getD, hsome]

/-- Claim C9: for every date whose provider query yields zero events,
`get_events_for_day` returns exactly the sentence
"No events found for <Weekday, Month DD, YYYY>." (the date rendered by
strftime "%A, %B %d, %Y", embedded here as `formatDateLong`) together
with an empty record list. -/
theorem fetchDay_no_events (target_date : Int) :
    get_events_for_day true (.ok []) target_date =
      ("No events found for " ++ formatDateLong target_date ++ ".", []) := rfl

/-- Spot check of the no-events sentence, including the date model, at
2025-04-20 (ordinal 739361). -/
theorem fetchDay_no_events_example :
    get_events_for_day true (.ok []) 739361 =
      ("No events found for Sunday, April 20, 2025.", []) := by decide

/-- Claim C3: for every day whose provider query yields N >= 1 events,
the rendered summary is the date header followed by exactly N lines, the
i-th (1-based) of which starts with the bracketed index `[i]` and reads
"`[i]` <time-label>: <title>" for the i-th event in provider order — so
the indices 1..N appear once each, ascending — and the record list has
length N with i-th element (id, time-label, title) of the event rendered
with index i. -/
theorem fetchDay_renders_indexed_lines (target_date : Int) (events : List GEvent)
    (hne : events ≠ []) :
    ∃ lines : List String,
      (get_events_for_day true (.ok events) target_date).1 =
        String.intercalate "\n"
          (("**Schedule for " ++ formatDateLong target_date ++ ":**") :: lines) ∧
      lines.length = events.length ∧
      (get_events_for_day true (.ok events) target_date).2.length = events.length ∧
      (∀ i, i < events.length →
        lines.getD i "" =
          "`[" ++ toString (i + 1) ++ "]` " ++ eventTimeStr (events.getD i default) ++
            ": " ++ eventTitle (events.getD i default) ∧
        strStarts ("`[" ++ toString (i + 1) ++ "]` ") (lines.getD i "") ∧
        (get_events_for_day true (.ok events) target_date).2.getD i ("", "", "") =
          eventRecord (events.getD i default)) := by
  have hem : events.isEmpty = false := by
    cases events with
    | nil => exact absurd rfl hne
    | cons e rest => rfl
  have h2 : (get_events_for_day true (.ok events) target_date).2 =
      events.map eventRecord := by
    simp [get_events_for_day, hem]
  refine ⟨renderLines 1 events, ?_, renderLines_length 1 events, ?_, ?_⟩
  · simp [get_events_for_day, hem]
  · rw [h2, List.length_map]
  · intro i hi
    have hline := renderLines_getD 1 i events hi
    have hlineq : (renderLines 1 events).getD i "" =
        "`[" ++ toString (i + 1) ++ "]` " ++ eventTimeStr (events.getD i default) ++
          ": " ++ eventTitle (events.getD i default) := by
      rw [hline, Nat.add_comm 1 i]
      rfl
    refine ⟨hlineq, ⟨eventTimeStr (events.getD i default) ++
      (": " ++ eventTitle (events.getD i default)), ?_⟩, ?_⟩
    · rw [hlineq, String.append_assoc, String.append_assoc]
    · rw [h2]
      exact getD_map_eventRecord events i hi

/-- The two events of the spec's worked scenario for 2025-04-20: a timed
09:30-10:30 "Standup" (minutes 570-630 of the day) and an all-day
"Holiday". -/
def standupHoliday : List GEvent :=
  [⟨"ev1", .dateTime 570, .dateTime 630, some "Standup"⟩,
   ⟨"ev2", .date "2025-04-20", .date "2025-04-21", some "Holiday"⟩]

/-- The spec's scenario rendering, evaluated in full. -/
theorem fetchDay_scenario :
    get_events_for_day true (.ok standupHoliday) 739361 =
      ("**Schedule for Sunday, April 20, 2025:**\n`[1]` 09:30 AM (60 min): Standup\n`[2]` All Day: Holiday",
       [("ev1", "09:30 AM (60 min)", "Standup"), ("ev2", "All Day", "Holiday")]) := by
  decide

/-- Witness for claim C3 on the spec's two-event scenario day. -/
theorem fetchDay_renders_indexed_lines_witness :
    standupHoliday ≠ [] ∧
    (∃ lines : List String,
      (get_events_for_day true (.ok standupHoliday) 739361).1 =
        String.intercalate "\n"
          (("**Schedule for " ++ formatDateLong 739361 ++ ":**") :: lines) ∧
      lines.length = standupHoliday.length ∧
      (get_events_for_day true (.ok standupHoliday) 739361).2.length = standupHoliday.length ∧
      (∀ i, i < standupHoliday.length →
        lines.getD i "" =
          "`[" ++ toString (i + 1) ++ "]` " ++ eventTimeStr (standupHoliday.getD i default) ++
            ": " ++ eventTitle (standupHoliday.getD i default) ∧
        strStarts ("`[" ++ toString (i + 1) ++ "]` ") (lines.getD i "") ∧
        (get_events_for_day true (.ok standupHoliday) 739361).2.getD i ("", "", "") =
          eventRecord (standupHoliday.getD i default))) :=
  ⟨by decide, fetchDay_renders_indexed_lines 739361 standupHoliday (by decide)⟩

/-- Claim C4: `get_events_for_day` fails softly.  Its body is a total
function (every exception the Python code can see is caught by the
`except HttpError` / `except Exception` arms, modelled as the two error
constructors of `FetchResult`), and on every provider/network error it
returns normally with an empty record list and a summary string carrying
one of the two error prefixes downstream code tests for. -/
theorem fetchDay_soft_fail (fetch : FetchResult) (target_date : Int)
    (herr : fetch.isErr = true) :
    (get_events_for_day true fetch target_date).2 = [] ∧
    (strStarts "Error:" (get_events_for_day true fetch target_date).1 ∨
     strStarts "An unexpected error" (get_events_for_day true fetch target_date).1) := by
  cases fetch with
  | ok items => simp [FetchResult.isErr] at herr
  | httpError e =>
    refine ⟨rfl, .inl ⟨" An HTTP error occurred while fetching the schedule: " ++ e, ?_⟩⟩
    show "Error: An HTTP error occurred while fetching the schedule: " ++ e = _
    rw [show ("Error: An HTTP error occurred while fetching the schedule: " : String) =
      "Error:" ++ " An HTTP error occurred while fetching the schedule: " from rfl,
      String.append_assoc]
  | otherError e =>
    refine ⟨rfl, .inr ⟨" occurred while fetching the schedule: " ++ e, ?_⟩⟩
    show "An unexpected error occurred while fetching the schedule: " ++ e = _
    rw [show ("An unexpected error occurred while fetching the schedule: " : String) =
      "An unexpected error" ++ " occurred while fetching the schedule: " from rfl,
      String.append_assoc]

/-- Witness for claim C4 on a concrete HTTP failure. -/
theorem fetchDay_soft_fail_witness :
    (FetchResult.httpError "boom").isErr = true ∧
    ((get_events_for_day true (.httpError "boom") 739361).2 = [] ∧
     (strStarts "Error:" (get_events_for_day true (.httpError "boom") 739361).1 ∨
      strStarts "An unexpected error" (get_events_for_day true (.httpError "boom") 739361).1)) :=
  ⟨rfl, fetchDay_soft_fail (.httpError "boom") 739361 rfl⟩

/-- Whether `p` is a literal prefix of `msg`, as a Bool over the character
lists (so it evaluates by kernel reduction). -/
def strStartsB (p msg : String) : Bool := p.data.isPrefixOf msg.data

/-- The Bool prefix check decides `strStarts`. -/
theorem strStarts_iff (p msg : String) : strStarts p msg ↔ strStartsB p msg = true := by
  constructor
  · rintro ⟨rest, rfl⟩
    rw [strStartsB, List.isPrefixOf_iff_prefix, String.data_append]
    exact ⟨rest.data, rfl⟩
  · intro h
    rw [strStartsB, List.isPrefixOf_iff_prefix] at h
    obtain ⟨t, ht⟩ := h
    refine ⟨⟨t⟩, ?_⟩
    apply String.ext
    rw [String.data_append]
    exact ht.symm

/-! ## Event mutation (`add_calendar_event`, `remove_calendar_event`)

The emoji of the success/warning messages appear in the source file as
the mis-decoded byte sequences reproduced below with explicit \u
escapes. -/

/-- strftime `"%b %d at %I:%M %p"` on a timestamp (minutes since the
local-zone epoch), as in the add confirmation message. -/
def fmtAddStamp (t : Int) : String :=
  let c := civilFromOrdinal (t.fdiv 1440)
  monthNamesShort.getD c.2.1 "" ++ " " ++ pad2 c.2.2 ++ " at " ++ fmtClock t

/-- strftime `"%Y-%m-%d %I:%M %p %Z"` on a timestamp, as in the add
announcement message; `tzName` is the local timezone's name. -/
def fmtAddAnnounce (t : Int) (tzName : String) : String :=
  let c := civilFromOrdinal (t.fdiv 1440)
  toString c.1 ++ "-" ++ pad2 c.2.1 ++ "-" ++ pad2 c.2.2 ++ " " ++
    fmtClock t ++ " " ++ tzName

/-- Outcome of the provider `events().insert(...).execute()` call. -/
inductive InsertResult where
  | ok (htmlLink : String)
  | httpError (e : String)
  | otherError (e : String)
deriving DecidableEq, Repr

/-- Shallow embedding of `add_calendar_event` (google_calendar.py
218-248): the message returned for each outcome of the provider insert
call (which itself is recorded by the caller). -/
def add_calendar_event (service : Bool) (summary : String) (start_dt : Int)
    (res : InsertResult) : String :=
  if !service then "Error: Calendar service not available."
  else
    match res with
    | .ok link =>
      "âœ… Event added: '" ++ summary ++ "' on " ++
        fmtAddStamp start_dt ++ ". Link: <" ++ link ++ ">"
    | .httpError e => "Error: An HTTP error occurred while adding the event: " ++ e
    | .otherError e => "An unexpected error occurred while adding the event: " ++ e

/-- Outcome of the provider `events().delete(...).execute()` call:
success, an `HttpError` carrying its HTTP status, or any other
exception. -/
inductive DeleteResult where
  | ok
  | httpError (status : Nat) (e : String)
  | otherError (e : String)
deriving DecidableEq, Repr

/-- Shallow embedding of `remove_calendar_event` (google_calendar.py
251-272): success returns the deletion message; an `HttpError` with
status 404 or 410 the benign not-found warning; any other `HttpError` an
error message; any other exception the unexpected-error message. -/
def remove_calendar_event (service : Bool) (res : DeleteResult) : String :=
  if !service then "Error: Calendar service not available."
  else
    match res with
    | .ok => "ðŸ—‘ï¸ Event removed successfully."
    | .httpError status e =>
      if status = 404 || status = 410 then
        "âš ï¸ Event not found. It might have been already deleted."
      else
        "Error: An HTTP error occurred while removing the event: " ++ e
    | .otherError e => "An unexpected error occurred while removing the event: " ++ e

/-- Claim C7: a delete the provider answers with HTTP 404 or 410 yields
the benign already-gone warning — a fixed sentence that does not carry
the error prefix — while every other HTTP-level failure of the delete is
surfaced as an error-prefixed outcome. -/
theorem remove_event_notfound_benign (status : Nat) (e : String) :
    ((status = 404 ∨ status = 410) →
      remove_calendar_event true (.httpError status e) =
        "âš ï¸ Event not found. It might have been already deleted." ∧
      ¬ strStarts "Error" (remove_calendar_event true (.httpError status e))) ∧
    (status ≠ 404 → status ≠ 410 →
      strStarts "Error:" (remove_calendar_event true (.httpError status e))) := by
  constructor
  · rintro (rfl | rfl)
    · refine ⟨by rfl, ?_⟩
      rw [show remove_calendar_event true (.httpError 404 e) =
        "âš ï¸ Event not found. It might have been already deleted." from by rfl,
        strStarts_iff]
      decide
    · refine ⟨by rfl, ?_⟩
      rw [show remove_calendar_event true (.httpError 410 e) =
        "âš ï¸ Event not found. It might have been already deleted." from by rfl,
        strStarts_iff]
      decide
  · intro h4 h10
    have hmsg : remove_calendar_event true (.httpError status e) =
        "Error: An HTTP error occurred while removing the event: " ++ e := by
      rw [remove_calendar_event]
      simp [h4, h10]
    rw [hmsg,
      show ("Error: An HTTP error occurred while removing the event: " : String) =
        "Error:" ++ " An HTTP error occurred while removing the event: " from rfl,
      String.append_assoc]
    exact ⟨_, rfl⟩

/-- Witness for claim C7 at statuses 404 and 500. -/
theorem remove_event_notfound_benign_witness :
    (remove_calendar_event true (.httpError 404 "notFound") =
       "âš ï¸ Event not found. It might have been already deleted." ∧
     ¬ strStarts "Error" (remove_calendar_event true (.httpError 404 "notFound"))) ∧
    strStarts "Error:" (remove_calendar_event true (.httpError 500 "backendError")) :=
  ⟨(remove_event_notfound_benign 404 "notFound").1 (Or.inl rfl),
   (remove_event_notfound_benign 500 "backendError").2 (by decide) (by decide)⟩
/-! ## ScheduleCog (`cogs/schedule_cog.py`) -/

/-- Python's `event_id_to_remove[:6]` (schedule_cog.py line 223), over the
character list so it evaluates by kernel reduction. -/
def pySlice6 (s : String) : String := ⟨s.data.take 6⟩

/-- The per-cog state the claims concern: `last_viewed_events`, the dict
mapping a requester's id to the record list of their last view
(schedule_cog.py line 24); a missing key reads as `none`, matching
`dict.get`. -/
structure CogState where
  last_viewed_events : Nat → Option (List (String × String × String))

/-- The guidance sent when a requester has no usable snapshot
(schedule_cog.py line 215). -/
def viewFirstMsg : String :=
  "Please use `!schedule view` first to see the list of events and their IDs."

/-- The validation error sent for an out-of-range index
(schedule_cog.py line 237). -/
def invalidIndexMsg (event_index : Int) : String :=
  "Error: Invalid ID '" ++ toString event_index ++
    "'. Please use `!schedule view` and provide a valid number from the list."

/-- Shallow embedding of the `schedule view` handler (schedule_cog.py
134-160).  Returns the new cog state and the messages sent, in order.
`executorExn` models an exception escaping the `run_in_executor` offload
(the `except` of lines 154-157); since `get_events_for_day` itself
catches every provider error, that is a transport-level failure only.
On a successful offload the requester's cache entry is overwritten with
the returned record list (line 159) whatever that list is. -/
def schedule_view (s : CogState) (service : Bool) (gp : GeneralParser)
    (today : Int) (uid : Nat) (day_str : String) (fetch : FetchResult)
    (executorExn : Bool) : CogState × List String :=
  if !service then
    (s, ["Error: Google Calendar connection is not available."])
  else
    match parse_relative_date gp today day_str with
    | none =>
      (s, ["Error: Could not understand the date '" ++ day_str ++
           "'. Try 'today', 'tomorrow', 'monday', 'April 25', etc."])
    | some target_date =>
      let fetching := "Fetching schedule for " ++ formatDateLong target_date ++
        " from Google Calendar..."
      if executorExn then
        (s, [fetching, "Sorry, an error occurred while fetching the schedule."])
      else
        let res := get_events_for_day service fetch target_date
        ({ last_viewed_events := fun u =>
             if u = uid then some res.2 else s.last_viewed_events u },
         [fetching, res.1])

/-- Outcome of `parser.parse(time_str)` in `schedule_add`: a parsed
timestamp (minutes since the local-zone epoch, the timezone
normalisation of lines 172-176 folded in), a `ParserError`, a
`ValueError`, or any other exception — the four `except` arms of
lines 194-202. -/
inductive TimeParse where
  | ok (t : Int)
  | parserError
  | valueError (e : String)
  | otherError
deriving DecidableEq, Repr

/-- Shallow embedding of the `schedule add` handler (schedule_cog.py
162-202).  `tp` is the outcome of `parser.parse(time_str)`; `tzName` the
`%Z` name in the announcement; `ins` the provider's answer to an issued
insert.  Returns the messages sent and the insert call issued as
`(start_dt, end_dt)` minutes (`none` when no provider insert happens).
The executor offload is transparent because `add_calendar_event`
catches every exception. -/
def schedule_add (service : Bool) (tp : TimeParse) (summary : String)
    (time_str : String) (duration_minutes : Int) (tzName : String)
    (ins : Int → Int → InsertResult) : List String × Option (Int × Int) :=
  if !service then
    (["Error: Google Calendar connection is not available."], none)
  else
    match tp with
    | .ok start_dt =>
      let end_dt := start_dt + duration_minutes
      (["Adding event '" ++ summary ++ "' to Google Calendar for " ++
          fmtAddAnnounce start_dt tzName ++ "...",
        add_calendar_event service summary start_dt (ins start_dt end_dt)],
       some (start_dt, end_dt))
    | .parserError =>
      (["Error: Could not understand the time '" ++ time_str ++
        "'. Please use formats like '3pm', '15:00', 'tomorrow 10am', '2025-04-20 14:30'."],
       none)
    | .valueError e =>
      (["Error processing time or duration. Please check your input: " ++ e], none)
    | .otherError =>
      (["An unexpected error occurred while adding the event."], none)

/-- Shallow embedding of the `schedule remove` handler (schedule_cog.py
204-243).  Returns the (never modified) cog state, the messages sent,
and the provider id a delete call was issued for (`none` when no delete
call happens).  `del` is the provider's answer per event id.  The
Python `if not user_last_events` treats a missing and an empty snapshot
alike; the bounds check `0 <= target_index < len` guards the list
index.  The executor offload is transparent because
`remove_calendar_event` catches every exception. -/
def schedule_remove (s : CogState) (service : Bool) (uid : Nat)
    (event_index : Int) (del : String → DeleteResult) :
    CogState × List String × Option String :=
  if !service then
    (s, ["Error: Google Calendar connection is not available."], none)
  else
    match s.last_viewed_events uid with
    | none => (s, [viewFirstMsg], none)
    | some user_last_events =>
      if user_last_events.isEmpty then
        (s, [viewFirstMsg], none)
      else
        let target_index := event_index - 1
        if 0 ≤ target_index ∧ target_index < (user_last_events.length : Int) then
          let r := user_last_events.getD target_index.toNat ("", "", "")
          (s, ["Attempting to remove event: [" ++ toString event_index ++ "] " ++
                 r.2.1 ++ ": " ++ r.2.2 ++ " (ID: " ++ pySlice6 r.1 ++ "...)...",
               remove_calendar_event service (del r.1)],
           some r.1)
        else
          (s, [invalidIndexMsg event_index], none)

/-- Claim C6: for every unparseable time string (`parser.parse` raises
`ParserError`), the add command issues no provider insert call — the
provider is untouched — and always returns exactly the time-parse error
guidance message. -/
theorem add_unparseable_time_no_insert (summary time_str : String)
    (duration_minutes : Int) (tzName : String) (ins : Int → Int → InsertResult) :
    schedule_add true .parserError summary time_str duration_minutes tzName ins =
      (["Error: Could not understand the time '" ++ time_str ++
        "'. Please use formats like '3pm', '15:00', 'tomorrow 10am', '2025-04-20 14:30'."],
       none) := rfl

/-- Claim C8: the remove handler never touches `last_viewed_events`: for
every state, requester, index and provider answer (so in particular for
every in-range, successful removal) the cog state after `schedule
remove` is the state before it — no entry is modified, re-fetched or
renumbered. -/
theorem schedule_remove_frame (s : CogState) (service : Bool) (uid : Nat)
    (event_index : Int) (del : String → DeleteResult) :
    (schedule_remove s service uid event_index del).1 = s := by
  rw [schedule_remove]
  split
  · rfl
  · split
    · rfl
    · split
      · rfl
      · dsimp only
        split
        · rfl
        · rfl

/-- Case equation: with no cached snapshot the remove handler sends the
view-first guidance and issues no delete. -/
theorem schedule_remove_no_snapshot (s : CogState) (uid : Nat) (i : Int)
    (del : String → DeleteResult) (h : s.last_viewed_events uid = none) :
    schedule_remove s true uid i del = (s, [viewFirstMsg], none) := by
  simp [schedule_remove, h]

/-- Case equation: an empty cached snapshot is treated exactly like a
missing one (`if not user_last_events`). -/
theorem schedule_remove_empty_snapshot (s : CogState) (uid : Nat) (i : Int)
    (del : String → DeleteResult) (h : s.last_viewed_events uid = some []) :
    schedule_remove s true uid i del = (s, [viewFirstMsg], none) := by
  simp [schedule_remove, h]

/-- Case equation: with a cached snapshot and `1 <= i <= len`, the remove
handler announces and deletes exactly the record at position `i - 1`. -/
theorem schedule_remove_in_range (s : CogState) (uid : Nat) (i : Int)
    (del : String → DeleteResult) (recs : List (String × String × String))
    (h : s.last_viewed_events uid = some recs)
    (h1 : 1 ≤ i) (h2 : i ≤ (recs.length : Int)) :
    schedule_remove s true uid i del =
      (s, ["Attempting to remove event: [" ++ toString i ++ "] " ++
             (recs.getD (i - 1).toNat ("", "", "")).2.1 ++ ": " ++
             (recs.getD (i - 1).toNat ("", "", "")).2.2 ++ " (ID: " ++
             pySlice6 (recs.getD (i - 1).toNat ("", "", "")).1 ++ "...)...",
           remove_calendar_event true (del (recs.getD (i - 1).toNat ("", "", "")).1)],
       some (recs.getD (i - 1).toNat ("", "", "")).1) := by
  have hne : recs.isEmpty = false := by
    cases recs with
    | nil => simp at h2; omega
    | cons a l => rfl
  have hcond : 0 ≤ i - 1 ∧ i - 1 < (recs.length : Int) := by omega
  simp [schedule_remove, h, hne, hcond]

/-- Case equation: with a cached non-empty snapshot and an out-of-range
index, the remove handler sends the invalid-ID validation message and
issues no delete. -/
theorem schedule_remove_out_of_range (s : CogState) (uid : Nat) (i : Int)
    (del : String → DeleteResult) (recs : List (String × String × String))
    (h : s.last_viewed_events uid = some recs) (hne : recs ≠ [])
    (hout : i < 1 ∨ (recs.length : Int) < i) :
    schedule_remove s true uid i del = (s, [invalidIndexMsg i], none) := by
  have hne' : recs.isEmpty = false := by
    cases recs with
    | nil => exact absurd rfl hne
    | cons a l => rfl
  have hcond : ¬(0 ≤ i - 1 ∧ i - 1 < (recs.length : Int)) := by omega
  simp [schedule_remove, h, hne', hcond]
  omega

/-- Claim C2: the remove handler issues a provider delete call iff the
requester has a cached snapshot and `1 <= i <= len(snapshot)`, in which
case it deletes exactly the provider id of `records[i-1]` (distinct
in-range indices delete distinct ids when the snapshot's ids are
distinct, as provider ids are).  With no snapshot it sends the view-first
guidance; with an out-of-range index the invalid-ID validation message
pointing back at the list from `!schedule view`; in both cases no delete
call is issued, leaving provider state unchanged. -/
theorem schedule_remove_spec (s : CogState) (uid : Nat) (i : Int)
    (del : String → DeleteResult) :
    ((schedule_remove s true uid i del).2.2.isSome = true ↔
      ∃ recs, s.last_viewed_events uid = some recs ∧
        1 ≤ i ∧ i ≤ (recs.length : Int)) ∧
    (s.last_viewed_events uid = none →
      (schedule_remove s true uid i del).2 = ([viewFirstMsg], none)) ∧
    (∀ recs, s.last_viewed_events uid = some recs → recs ≠ [] →
      (i < 1 ∨ (recs.length : Int) < i) →
      (schedule_remove s true uid i del).2 = ([invalidIndexMsg i], none)) ∧
    (∀ recs, s.last_viewed_events uid = some recs →
      1 ≤ i → i ≤ (recs.length : Int) →
      (schedule_remove s true uid i del).2.2 =
        some (recs.getD (i - 1).toNat ("", "", "")).1) ∧
    (∀ recs, s.last_viewed_events uid = some recs →
      (recs.map Prod.fst).Nodup →
      ∀ j : Int, 1 ≤ i → i ≤ (recs.length : Int) →
        1 ≤ j → j ≤ (recs.length : Int) → i ≠ j →
        (schedule_remove s true uid i del).2.2 ≠
          (schedule_remove s true uid j del).2.2) := by
  refine ⟨⟨?_, ?_⟩, ?_, ?_, ?_, ?_⟩
  · intro hsome
    cases hl : s.last_viewed_events uid with
    | none =>
      rw [schedule_remove_no_snapshot s uid i del hl] at hsome
      simp at hsome
    | some recs =>
      refine ⟨recs, rfl, ?_⟩
      by_contra hcon
      rcases Decidable.em (recs = []) with hemp | hemp
      · subst hemp
        rw [schedule_remove_empty_snapshot s uid i del hl] at hsome
        simp at hsome
      · have hout : i < 1 ∨ (recs.length : Int) < i := by omega
        rw [show (schedule_remove s true uid i del).2 =
          ([invalidIndexMsg i], none) from
          congrArg Prod.snd (schedule_remove_out_of_range s uid i del recs hl hemp hout)]
          at hsome
        simp at hsome
  · rintro ⟨recs, hl, h1, h2⟩
    have := congrArg Prod.snd (schedule_remove_in_range s uid i del recs hl h1 h2)
    rw [show (schedule_remove s true uid i del).2.2 =
      some (recs.getD (i - 1).toNat ("", "", "")).1 from congrArg Prod.snd this]
    rfl
  · intro hl
    exact congrArg Prod.snd (schedule_remove_no_snapshot s uid i del hl)
  · intro recs hl hne hout
    exact congrArg Prod.snd (schedule_remove_out_of_range s uid i del recs hl hne hout)
  · intro recs hl h1 h2
    exact congrArg Prod.snd
      (congrArg Prod.snd (schedule_remove_in_range s uid i del recs hl h1 h2))
  · intro recs hl hnd j hi1 hi2 hj1 hj2 hij
    rw [congrArg Prod.snd (congrArg Prod.snd
        (schedule_remove_in_range s uid i del recs hl hi1 hi2)),
      congrArg Prod.snd (congrArg Prod.snd
        (schedule_remove_in_range s uid j del recs hl hj1 hj2))]
    intro heq
    have hki : (i - 1).toNat < recs.length := by omega
    have hkj : (j - 1).toNat < recs.length := by omega
    have hsi : recs[(i - 1).toNat]? = some recs[(i - 1).toNat] :=
      List.getElem?_eq_getElem hki
    have hsj : recs[(j - 1).toNat]? = some recs[(j - 1).toNat] :=
      List.getElem?_eq_getElem hkj
    simp only [Option.some_inj, List.getD_eq_getElem?_getD, hsi, hsj,
      Option.getD_some] at heq
    have hmi : (i - 1).toNat < (recs.map Prod.fst).length := by simpa using hki
    have hmj : (j - 1).toNat < (recs.map Prod.fst).length := by simpa using hkj
    have hmap : (recs.map Prod.fst).get ⟨(i - 1).toNat, hmi⟩ =
        (recs.map Prod.fst).get ⟨(j - 1).toNat, hmj⟩ := by
      simpa [List.getElem_map] using heq
    have hfin := hnd.get_inj_iff.mp hmap
    have hval : (i - 1).toNat = (j - 1).toNat := congrArg Fin.val hfin
    omega

/-- A three-record snapshot for the claim C2 witness. -/
def recsThree : List (String × String × String) :=
  [("idA", "09:00 AM", "A"), ("idB", "10:00 AM", "B"), ("idC", "11:00 AM", "C")]

/-- A cog state in which requester 7 has viewed `recsThree`. -/
def cacheThree : CogState :=
  ⟨fun u => if u = 7 then some recsThree else none⟩

/-- Witness for claim C2: with a cached snapshot of length 3, indices 0
and 4 fail validation with no delete; index 2 deletes exactly "idB"; a
requester with no prior view gets the view-first guidance; indices 1 and
3 delete distinct ids. -/
theorem schedule_remove_spec_witness :
    (schedule_remove cacheThree true 7 0 (fun _ => .ok)).2 = ([invalidIndexMsg 0], none) ∧
    (schedule_remove cacheThree true 7 4 (fun _ => .ok)).2 = ([invalidIndexMsg 4], none) ∧
    (schedule_remove cacheThree true 7 2 (fun _ => .ok)).2.2 = some "idB" ∧
    (schedule_remove cacheThree true 0 1 (fun _ => .ok)).2 = ([viewFirstMsg], none) ∧
    (schedule_remove cacheThree true 7 1 (fun _ => .ok)).2.2 ≠
      (schedule_remove cacheThree true 7 3 (fun _ => .ok)).2.2 :=
  ⟨(schedule_remove_spec cacheThree 7 0 (fun _ => .ok)).2.2.1 recsThree (by rfl)
      (by decide) (by decide),
   (schedule_remove_spec cacheThree 7 4 (fun _ => .ok)).2.2.1 recsThree (by rfl)
      (by decide) (by decide),
   ((schedule_remove_spec cacheThree 7 2 (fun _ => .ok)).2.2.2.1 recsThree (by rfl)
      (by decide) (by decide)).trans (by decide),
   (schedule_remove_spec cacheThree 0 1 (fun _ => .ok)).2.1 (by rfl),
   (schedule_remove_spec cacheThree 7 1 (fun _ => .ok)).2.2.2.2 recsThree (by rfl)
      (by decide) 3 (by decide) (by decide) (by decide) (by decide) (by decide)⟩

/-- On either caught fetch error, `get_events_for_day` returns an empty
record list. -/
theorem get_events_err_records (fetch : FetchResult) (td : Int)
    (herr : fetch.isErr = true) :
    (get_events_for_day true fetch td).2 = [] := by
  cases fetch with
  | ok items => simp [FetchResult.isErr] at herr
  | httpError e => rfl
  | otherError e => rfl

/-- Claim C5: a view whose fetch soft-fails (provider error captured
inside `get_events_for_day`) still overwrites the requester's cache
entry — replacing any previous snapshot with the empty record list — and
afterwards every remove request from that requester is answered with the
view-first guidance and issues no delete call: an empty snapshot behaves
exactly like a missing one. -/
theorem view_soft_fail_clears_cache (s : CogState) (gp : GeneralParser)
    (today : Int) (uid : Nat) (day_str : String) (fetch : FetchResult)
    (target_date : Int)
    (hparse : parse_relative_date gp today day_str = some target_date)
    (herr : fetch.isErr = true) :
    (schedule_view s true gp today uid day_str fetch false).1.last_viewed_events uid
      = some [] ∧
    ∀ (i : Int) (del : String → DeleteResult),
      (schedule_remove (schedule_view s true gp today uid day_str fetch false).1
        true uid i del).2 = ([viewFirstMsg], none) := by
  have hst : (schedule_view s true gp today uid day_str fetch
      false).1.last_viewed_events uid = some [] := by
    simp [schedule_view, hparse, get_events_err_records fetch target_date herr]
  exact ⟨hst, fun i del =>
    congrArg Prod.snd (schedule_remove_empty_snapshot _ uid i del hst)⟩

/-- A cog state in which requester 7 holds a previously valid one-record
snapshot, for the claim C5 witness. -/
def priorView : CogState :=
  ⟨fun u => if u = 7 then some [("idX", "09:00 AM", "X")] else none⟩

/-- Witness for claim C5: requester 7's valid snapshot is overwritten by
a failed view of "today", after which removal is rejected. -/
theorem view_soft_fail_clears_cache_witness :
    parse_relative_date dateutilParse 739362 "today" = some 739362 ∧
    (FetchResult.httpError "boom").isErr = true ∧
    priorView.last_viewed_events 7 = some [("idX", "09:00 AM", "X")] ∧
    ((schedule_view priorView true dateutilParse 739362 7 "today"
        (.httpError "boom") false).1.last_viewed_events 7 = some [] ∧
     ∀ (i : Int) (del : String → DeleteResult),
       (schedule_remove (schedule_view priorView true dateutilParse 739362 7 "today"
          (.httpError "boom") false).1 true 7 i del).2 = ([viewFirstMsg], none)) :=
  ⟨by decide, rfl, by rfl,
   view_soft_fail_clears_cache priorView dateutilParse 739362 7 "today"
     (.httpError "boom") 739362 (by decide) rfl⟩
end Nova
